import Mathlib

/-!
Shallow embedding of the repository's two scripts:

* `Rendering Multi-View Images/src/render_script.py` — a Blender automation
  script: import a model, merge its meshes, normalize the size, recenter,
  set up lights, render a 360° turntable, save the scene.
* `example.py` — a straight-line driver of the TRELLIS image-to-3D pipeline.

Geometry is modelled over `ℚ` (the scripts' float arithmetic, read exactly);
the camera orbit trigonometry is modelled over `ℝ`.  A Blender object is a
mesh (a list of local-space vertices) together with the parts of its
transform that the scripts ever read or write: a translation and a per-axis
scale.  The scripts never assign a rotation to any mesh object (only the
camera is rotated, and that rotation is modelled separately), so object
rotations are carried implicitly as the identity.  Host-owned operations
(file importers, the renderer, the file system) enter as explicit oracle
parameters (`ex` for `os.path.exists`, `imp` for the per-format importers).
-/

/-- A 3-component vector over `ℚ`, modelling `mathutils.Vector`. -/
structure Vec3 where
  x : ℚ
  y : ℚ
  z : ℚ
deriving DecidableEq

instance : Add Vec3 := ⟨fun a b => ⟨a.x + b.x, a.y + b.y, a.z + b.z⟩⟩

instance : Sub Vec3 := ⟨fun a b => ⟨a.x - b.x, a.y - b.y, a.z - b.z⟩⟩

/-- The zero vector, `mathutils.Vector()`. -/
def Vec3.zero : Vec3 := ⟨0, 0, 0⟩

/-- The all-ones vector (the identity scale of a fresh Blender object). -/
def Vec3.one : Vec3 := ⟨1, 1, 1⟩

/-- Componentwise product; Blender applies a per-axis scale this way. -/
def Vec3.hadamard (a b : Vec3) : Vec3 := ⟨a.x * b.x, a.y * b.y, a.z * b.z⟩

/-- Scalar multiple, `Vector * float` in `mathutils`. -/
def Vec3.smulc (c : ℚ) (v : Vec3) : Vec3 := ⟨c * v.x, c * v.y, c * v.z⟩

/-- Division of a vector by a scalar, `Vector / 8` in `mathutils`. -/
def Vec3.divc (v : Vec3) (c : ℚ) : Vec3 := ⟨v.x / c, v.y / c, v.z / c⟩

/-- Sum of a list of vectors starting from zero, `sum(bbox, Vector())`. -/
def Vec3.sumList (l : List Vec3) : Vec3 := l.foldl (fun a b => a + b) Vec3.zero

/-- Maximum of a list of rationals (`0` for the empty list, matching the
degenerate bounding box Blender reports for empty meshes). -/
def listMax (l : List ℚ) : ℚ :=
  match l with
  | [] => 0
  | a :: t => t.foldl max a

/-- Minimum of a list of rationals (`0` for the empty list). -/
def listMin (l : List ℚ) : ℚ :=
  match l with
  | [] => 0
  | a :: t => t.foldl min a

/-- Extent (max minus min) of a list of coordinates along one axis. -/
def extent (l : List ℚ) : ℚ := listMax l - listMin l

/-- The object types the scripts distinguish (`obj.type` in Blender). -/
inductive ObjType
  | mesh
  | light
  | camera
  | other
deriving DecidableEq

/-- A Blender object as the scripts see it: a name, a type, the mesh's
local-space vertices (empty for non-mesh objects), a point-light energy
(`0` for non-lights), and the translation / per-axis-scale transform. -/
structure BObject where
  name : String
  otype : ObjType
  verts : List Vec3
  energy : ℚ
  location : Vec3
  scale : Vec3
deriving DecidableEq

/-- The Blender scene: the mutable collection `bpy.context.scene.objects`. -/
structure Scene where
  objects : List BObject
deriving DecidableEq

/-- The scene produced by `bpy.ops.wm.read_factory_settings(use_empty=True)`. -/
def emptyScene : Scene := ⟨[]⟩

/-- World-space image of a local point, `obj.matrix_world @ v` for an object
whose transform is translation plus per-axis scale. -/
def BObject.worldPoint (o : BObject) (v : Vec3) : Vec3 :=
  o.location + o.scale.hadamard v

/-- The eight local-space bounding-box corners, `obj.bound_box`, in
Blender's corner order. -/
def BObject.bound_box (o : BObject) : List Vec3 :=
  let xs := o.verts.map (fun v => v.x)
  let ys := o.verts.map (fun v => v.y)
  let zs := o.verts.map (fun v => v.z)
  [⟨listMin xs, listMin ys, listMin zs⟩,
   ⟨listMin xs, listMin ys, listMax zs⟩,
   ⟨listMin xs, listMax ys, listMax zs⟩,
   ⟨listMin xs, listMax ys, listMin zs⟩,
   ⟨listMax xs, listMin ys, listMin zs⟩,
   ⟨listMax xs, listMin ys, listMax zs⟩,
   ⟨listMax xs, listMax ys, listMax zs⟩,
   ⟨listMax xs, listMax ys, listMin zs⟩]

/-- Blender's `obj.dimensions`: the world-space size of the local bounding
box, i.e. the absolute scale times the local extent, per axis. -/
def BObject.dimensions (o : BObject) : Vec3 :=
  ⟨|o.scale.x| * extent (o.verts.map (fun v => v.x)),
   |o.scale.y| * extent (o.verts.map (fun v => v.y)),
   |o.scale.z| * extent (o.verts.map (fun v => v.z))⟩

/-- Models `bpy.ops.object.transform_apply(location=..., rotation=..., scale=...)`:
the selected transform channels are baked into the mesh vertices and reset to
their identity values.  The `rotationFlag` has no effect because rotations are
identity throughout (see the header note); the script's two call sites use
`(True, True, True)` and `(False, False, True)`. -/
def BObject.transform_apply (o : BObject) (locFlag _rotationFlag scaleFlag : Bool) :
    BObject :=
  match locFlag, scaleFlag with
  | true, true =>
      { o with verts := o.verts.map (fun v => o.location + o.scale.hadamard v),
               location := Vec3.zero, scale := Vec3.one }
  | false, true =>
      { o with verts := o.verts.map (fun v => o.scale.hadamard v),
               scale := Vec3.one }
  | true, false =>
      { o with verts := o.verts.map (fun v =>
          v + ⟨o.location.x / o.scale.x, o.location.y / o.scale.y, o.location.z / o.scale.z⟩),
               location := Vec3.zero }
  | false, false => o

/-- Result of `combine_objects`: the merged object (if any), the scene after
the call, and the console messages it printed. -/
structure CombineOut where
  combined : Option BObject
  scene : Scene
  msgs : List String
deriving DecidableEq

/-- `combine_objects()` from `render_script.py`: collect every mesh object;
if none, print a message and return `None`; otherwise bake each object's
transform into its geometry (`transform_apply(location=True, rotation=True,
scale=True)`), join them all into a single object, and rename it
`"Combined_Object"`. -/
def combine_objects (s : Scene) : CombineOut :=
  let imported_objects := s.objects.filter (fun o => o.otype == ObjType.mesh)
  match imported_objects with
  | [] =>
      { combined := none, scene := s,
        msgs := ["No mesh objects found. Ensure the model is correctly imported!"] }
  | o :: rest =>
      let baked := (o :: rest).map (fun m => m.transform_apply true true true)
      let combined_object : BObject :=
        { name := "Combined_Object", otype := ObjType.mesh,
          verts := (baked.map (fun m => m.verts)).flatten,
          energy := 0, location := Vec3.zero, scale := Vec3.one }
      { combined := some combined_object,
        scene := ⟨s.objects.filter (fun m => m.otype != ObjType.mesh) ++ [combined_object]⟩,
        msgs := [] }

/-- The world-space bounding-box center computed inside `move_bbox_to_origin`:
`sum(bbox, Vector()) / 8` over the transformed corners `matrix_world @ corner`. -/
def bbox_center (o : BObject) : Vec3 :=
  Vec3.divc (Vec3.sumList (o.bound_box.map (fun corner => o.worldPoint corner))) 8

/-- `move_bbox_to_origin(obj)`: translate the object by the negative of its
world-space bounding-box center (`obj.location -= bbox_center`). -/
def move_bbox_to_origin (obj : BObject) : BObject :=
  { obj with location := obj.location - bbox_center obj }

/-- `setup_lights()`: link one point light `"Center_Light"` at `(0, 0, 2)`
with energy `200`, then one `"Diagonal_Light_{i+1}"` per diagonal position
`(±2, ±2, 2)` with energy `150`. -/
def setup_lights (s : Scene) : Scene :=
  let center_light : BObject :=
    { name := "Center_Light", otype := ObjType.light, verts := [],
      energy := 200, location := ⟨0, 0, 2⟩, scale := Vec3.one }
  let s1 : Scene := ⟨s.objects ++ [center_light]⟩
  let diagonal_positions : List Vec3 :=
    [⟨-2, -2, 2⟩, ⟨2, -2, 2⟩, ⟨-2, 2, 2⟩, ⟨2, 2, 2⟩]
  ⟨s1.objects ++ diagonal_positions.enum.map (fun p =>
      { name := "Diagonal_Light_" ++ toString (p.1 + 1), otype := ObjType.light,
        verts := [], energy := 150, location := p.2, scale := Vec3.one })⟩

/-- The `max_dimension` local of `normalize_model_size`:
`max(dimensions.x, dimensions.y, dimensions.z)`. -/
def max_dimension (o : BObject) : ℚ :=
  max o.dimensions.x (max o.dimensions.y o.dimensions.z)

/-- `normalize_model_size(obj, target_size)`: if the maximum bounding-box
dimension is zero, print a warning (the `Bool` component records it) and do
nothing; otherwise multiply the object's scale by
`target_size / max_dimension` and bake it with
`transform_apply(location=False, rotation=False, scale=True)`. -/
def normalize_model_size (obj : BObject) (target_size : ℚ) : BObject × Bool :=
  if max_dimension obj = 0 then
    (obj, true)
  else
    let scale_factor := target_size / max_dimension obj
    let obj2 := { obj with scale := Vec3.smulc scale_factor obj.scale }
    (obj2.transform_apply false false true, false)

/-- Python's `range(start, stop, step)` for a positive `step`, via structural
recursion on the fuel `stop - start` (enough iterations since `step ≥ 1`). -/
def range_step_aux : ℕ → ℕ → ℕ → ℕ → List ℕ
  | 0, _, _, _ => []
  | fuel + 1, start, stop, step =>
      if start < stop then start :: range_step_aux fuel (start + step) stop step
      else []

/-- Python's `range(start, stop, step)` (positive `step`; the script calls it
only with `step = angle_step > 0`, so the `step = 0` guard is never taken). -/
def range_step (start stop step : ℕ) : List ℕ :=
  if 0 < step then range_step_aux (stop - start) start stop step else []

/-- Python's `f"{n:03d}"` for `0 ≤ n < 1000` (every angle in the orbit loop
is below 360): the three decimal digits, left-padded with zeros. -/
def pad3 (n : ℕ) : String :=
  ⟨[Nat.digitChar (n / 100), Nat.digitChar (n / 10 % 10), Nat.digitChar (n % 10)]⟩

/-- One iteration of the orbit loop in `render_views`: the angle in degrees,
the output file name `angle_{angle:03d}.png`, and its full path. -/
structure Frame where
  angle : ℕ
  filename : String
  filepath : String
deriving DecidableEq

/-- `render_views(output_dir, angle_step, distance)`: ensure the output
directory exists (`dirs` models the set of existing directories), then for
each angle in `range(0, 360, angle_step)` position the camera and render to
`os.path.join(output_dir, f"angle_{angle_deg:03d}.png")`.  Returns the
directories after the call and the rendered frames in loop order.  The
camera placement of each iteration is `camera_location` below; the camera
object creation and the host render call are Blender-owned side effects. -/
def render_views (dirs : List String) (output_dir : String) (angle_step : ℕ) :
    List String × List Frame :=
  let dirs2 := if dirs.contains output_dir then dirs else dirs ++ [output_dir]
  let frames := (range_step 0 360 angle_step).map (fun angle_deg =>
    { angle := angle_deg
      filename := "angle_" ++ pad3 angle_deg ++ ".png"
      filepath := output_dir ++ "/" ++ ("angle_" ++ pad3 angle_deg ++ ".png") })
  (dirs2, frames)

/-- The camera position computed in the body of the orbit loop:
`angle_rad = math.radians(angle_deg)`, `x = distance * cos(angle_rad)`,
`y = distance * sin(angle_rad)`, `z = 0`. -/
noncomputable def camera_location (distance : ℝ) (angle_deg : ℕ) : ℝ × ℝ × ℝ :=
  let angle_rad : ℝ := (angle_deg : ℝ) * Real.pi / 180
  (distance * Real.cos angle_rad, distance * Real.sin angle_rad, 0)

/-- The tracking direction set in the orbit loop:
`direction = Vector((0, 0, 0)) - camera_object.location`; the camera's
rotation is then the host quaternion tracking this direction. -/
noncomputable def camera_track_direction (distance : ℝ) (angle_deg : ℕ) : ℝ × ℝ × ℝ :=
  let p := camera_location distance angle_deg
  (0 - p.1, 0 - p.2.1, 0 - p.2.2)

/-- Index of the last occurrence of a character in a list (Python `str.rfind`,
as an `Option` instead of `-1`). -/
def rfindIdx (l : List Char) (c : Char) : Option ℕ :=
  l.enum.foldl (fun acc p => if p.2 = c then some p.1 else acc) none

/-- Python's `os.path.splitext` for POSIX paths: split off the extension at
the last dot of the final component, unless every character between the last
path separator and that dot is itself a dot (leading dots never start an
extension). -/
def splitext (p : String) : String × String :=
  let l := p.data
  let sepIdx : Int := match rfindIdx l '/' with | none => -1 | some i => (i : Int)
  let dotIdx : Int := match rfindIdx l '.' with | none => -1 | some i => (i : Int)
  if sepIdx < dotIdx then
    if ((l.drop (sepIdx + 1).toNat).take (dotIdx - sepIdx - 1).toNat).any
        (fun ch => ch != '.') then
      (⟨l.take dotIdx.toNat⟩, ⟨l.drop dotIdx.toNat⟩)
    else (p, "")
  else (p, "")

/-- Python's `os.path.basename` for POSIX paths. -/
def basename (p : String) : String :=
  match rfindIdx p.data '/' with
  | none => p
  | some i => ⟨p.data.drop (i + 1)⟩

/-- Python's `str.lower` (and Lean's `String.toLower`), written over the
character list so that it evaluates by kernel reduction; identical on the
ASCII paths involved here. -/
def strToLower (s : String) : String := ⟨s.data.map Char.toLower⟩

/-- The error kinds the scripts raise (the spec's names for Python's
`FileNotFoundError` and the `ValueError` used for unsupported formats). -/
inductive PyErr
  | fileNotFound
  | unsupportedFormat
deriving DecidableEq

/-- The extension list searched by `get_model_path_from_args`. -/
def model_extensions : List String :=
  [".blend", ".obj", ".fbx", ".stl", ".glb", ".gltf"]

/-- `potential_files` as built inside `get_model_path_from_args`: for each
extension in order, keep `os.path.join(model_dir, model_filename + ext)`
when it exists (`ex` models `os.path.exists`). -/
def potential_files (ex : String → Bool) (model_dir model_filename : String) :
    List String :=
  model_extensions.filterMap (fun ext =>
    let test_path := model_dir ++ "/" ++ (model_filename ++ ext)
    if ex test_path then some test_path else none)

/-- The value returned by `get_model_path_from_args`, plus whether the
multiple-matches notice was printed. -/
structure PathResolution where
  model_path : String
  model_name : String
  ambiguity_reported : Bool
deriving DecidableEq

/-- `get_model_path_from_args()`: look for the first `"--"` in `argv`
(`sys.argv.index` raising `ValueError`, which the script catches, when
absent); with a following argument lacking an extension, search the model
directory over `model_extensions` — one match uses it, several use the first
and print a notice, none raises `FileNotFoundError` (uncaught); with an
extension, join directly; otherwise fall back to `car.blend`. -/
def get_model_path_from_args (ex : String → Bool) (argv : List String)
    (script_dir : String) : Except PyErr PathResolution :=
  let model_dir := script_dir ++ "/model"
  let default_res : Except PyErr PathResolution :=
    .ok { model_path := model_dir ++ "/car.blend", model_name := "car",
          ambiguity_reported := false }
  match argv.indexOf? "--" with
  | none => default_res
  | some idx =>
    if idx + 1 < argv.length then
      let model_filename := argv.getD (idx + 1) ""
      if (splitext model_filename).2 = "" then
        match potential_files ex model_dir model_filename with
        | [] => .error .fileNotFound
        | [p] =>
            .ok { model_path := p, model_name := (splitext (basename p)).1,
                  ambiguity_reported := false }
        | p :: _ :: _ =>
            .ok { model_path := p, model_name := (splitext (basename p)).1,
                  ambiguity_reported := true }
      else
        let model_path := model_dir ++ "/" ++ model_filename
        .ok { model_path := model_path,
              model_name := (splitext (basename model_path)).1,
              ambiguity_reported := false }
    else default_res

/-- The format-specific importers `load_3Dmodel` dispatches to
(`.glb` and `.gltf` share the glTF importer). -/
inductive Importer
  | blend
  | obj
  | fbx
  | stl
  | gltf
deriving DecidableEq

/-- `load_3Dmodel(file_path)`: raise `FileNotFoundError` if the path does not
exist; otherwise reset the scene to the empty factory state, then dispatch on
the lower-cased extension, raising `ValueError` (the spec's
`UnsupportedFormat`) for unknown extensions.  `ex` models `os.path.exists`;
`imp i path` models the objects the host importer `i` adds to the emptied
scene.  An error carries the scene state at the moment of the raise; success
carries the dispatched importer (the Python function returns `None`) and the
scene after the import. -/
def load_3Dmodel (ex : String → Bool) (imp : Importer → String → List BObject)
    (file_path : String) (s : Scene) : Except (PyErr × Scene) (Importer × Scene) :=
  if ex file_path = false then
    .error (.fileNotFound, s)
  else
    let emptied : Scene := emptyScene
    let file_ext := strToLower (splitext file_path).2
    if file_ext = ".blend" then .ok (.blend, ⟨imp .blend file_path⟩)
    else if file_ext = ".obj" then .ok (.obj, ⟨imp .obj file_path⟩)
    else if file_ext = ".fbx" then .ok (.fbx, ⟨imp .fbx file_path⟩)
    else if file_ext = ".stl" then .ok (.stl, ⟨imp .stl file_path⟩)
    else if file_ext = ".glb" ∨ file_ext = ".gltf" then .ok (.gltf, ⟨imp .gltf file_path⟩)
    else .error (.unsupportedFormat, emptied)

/-- The downstream stages of the `__main__` block that run only when
`combine_objects` returned an object. -/
inductive PipelineStep
  | normalizeStep
  | recenterStep
  | lightsStep
  | renderStep
  | saveStep
deriving DecidableEq

/-- The `__main__` block from `combine_objects` on: when no combined object
was produced, print an error and stop; otherwise normalize (target size 2),
recenter, set up lights, render, and save, in that order. -/
def main_pipeline (s : Scene) : Option BObject × List PipelineStep :=
  match (combine_objects s).combined with
  | none => (none, [])
  | some combined_object =>
      let co1 := (normalize_model_size combined_object 2).1
      let co2 := move_bbox_to_origin co1
      (some co2,
       [PipelineStep.normalizeStep, PipelineStep.recenterStep,
        PipelineStep.lightsStep, PipelineStep.renderStep, PipelineStep.saveStep])

/-- The three representations `pipeline.run` produces in `example.py`. -/
inductive RepKind
  | gaussian
  | radianceField
  | mesh
deriving DecidableEq

/-- The render channels `example.py` selects from `render_video`'s result. -/
inductive Channel
  | color
  | normal
deriving DecidableEq

/-- The effectful calls of `example.py`, with every list index at which a
generated representation is accessed recorded explicitly. -/
inductive ExAction
  | runInference (seed : ℕ)
  | renderVideo (rep : RepKind) (idx : ℕ) (ch : Channel)
  | saveVideo (file : String) (fps : ℕ)
  | exportGlb (gaussianIdx meshIdx : ℕ) (simplify : ℚ) (textureSize : ℕ) (file : String)
  | savePly (idx : ℕ) (file : String)
deriving DecidableEq

/-- The representation indices an action reads. -/
def ExAction.accessed_indices : ExAction → List ℕ
  | .runInference _ => []
  | .renderVideo _ i _ => [i]
  | .saveVideo _ _ => []
  | .exportGlb g m _ _ _ => [g, m]
  | .savePly i _ => [i]

/-- `base_filename` in `example.py`:
`osp.splitext(osp.basename(image_path))[0]` for the fixed image path. -/
def base_filename : String :=
  (splitext (basename "assets/example_image/car.png")).1

/-- The straight-line trace of `example.py`: one inference call with seed 1,
three orbit-video renders (color for the gaussian and radiance-field
representations, normal for the mesh), one GLB export with simplify `0.95`
and texture size `1024`, one PLY save — each representation read at index 0. -/
def example_script : List ExAction :=
  [ExAction.runInference 1,
   ExAction.renderVideo RepKind.gaussian 0 Channel.color,
   ExAction.saveVideo (base_filename ++ "_gs.mp4") 30,
   ExAction.renderVideo RepKind.radianceField 0 Channel.color,
   ExAction.saveVideo (base_filename ++ "_rf.mp4") 30,
   ExAction.renderVideo RepKind.mesh 0 Channel.normal,
   ExAction.saveVideo (base_filename ++ "_mesh.mp4") 30,
   ExAction.exportGlb 0 0 (95 / 100) 1024 (base_filename ++ ".glb"),
   ExAction.savePly 0 (base_filename ++ ".ply")]

/-! ### Helper lemmas -/

lemma vec3_add_x (a b : Vec3) : (a + b).x = a.x + b.x := rfl

lemma vec3_add_y (a b : Vec3) : (a + b).y = a.y + b.y := rfl

lemma vec3_add_z (a b : Vec3) : (a + b).z = a.z + b.z := rfl

lemma vec3_sub_x (a b : Vec3) : (a - b).x = a.x - b.x := rfl

lemma vec3_sub_y (a b : Vec3) : (a - b).y = a.y - b.y := rfl

lemma vec3_sub_z (a b : Vec3) : (a - b).z = a.z - b.z := rfl

lemma vec3_eq_iff (a b : Vec3) : a = b ↔ a.x = b.x ∧ a.y = b.y ∧ a.z = b.z := by
  constructor
  · rintro rfl; exact ⟨rfl, rfl, rfl⟩
  · rcases a with ⟨ax, ay, az⟩
    rcases b with ⟨bx, by2, bz⟩
    rintro ⟨h1, h2, h3⟩
    simp_all

/-! ### C3: recentering puts the bounding-box center at the origin -/

/-- C3.  `move_bbox_to_origin` translates the object by the negative of its
world-space bounding-box center (the average of the 8 transformed corner
points), and afterwards that center coincides with the world origin, for any
prior translation of the object. -/
theorem move_bbox_to_origin_spec (obj : BObject) :
    (move_bbox_to_origin obj).location = obj.location - bbox_center obj ∧
    bbox_center (move_bbox_to_origin obj) = Vec3.zero := by
  refine ⟨rfl, ?_⟩
  rw [vec3_eq_iff]
  refine ⟨?_, ?_, ?_⟩ <;>
    simp only [bbox_center, move_bbox_to_origin, BObject.bound_box, BObject.worldPoint,
      Vec3.sumList, Vec3.divc, Vec3.hadamard, Vec3.zero, List.map_cons, List.map_nil,
      List.foldl_cons, List.foldl_nil, vec3_add_x, vec3_add_y, vec3_add_z,
      vec3_sub_x, vec3_sub_y, vec3_sub_z] <;>
    ring

/-! ### C4: the light rig -/

/-- C4.  A single `setup_lights` call appends exactly five point lights to
the scene, whatever it contained before: `Center_Light` at `(0,0,2)` with
energy 200 and the four `Diagonal_Light_i` at `(±2,±2,2)` with energy 150,
and their final attributes are exactly these creation values. -/
theorem setup_lights_spec (s : Scene) :
    (setup_lights s).objects = s.objects ++
      [{ name := "Center_Light", otype := ObjType.light, verts := [], energy := 200,
         location := ⟨0, 0, 2⟩, scale := Vec3.one },
       { name := "Diagonal_Light_1", otype := ObjType.light, verts := [], energy := 150,
         location := ⟨-2, -2, 2⟩, scale := Vec3.one },
       { name := "Diagonal_Light_2", otype := ObjType.light, verts := [], energy := 150,
         location := ⟨2, -2, 2⟩, scale := Vec3.one },
       { name := "Diagonal_Light_3", otype := ObjType.light, verts := [], energy := 150,
         location := ⟨-2, 2, 2⟩, scale := Vec3.one },
       { name := "Diagonal_Light_4", otype := ObjType.light, verts := [], energy := 150,
         location := ⟨2, 2, 2⟩, scale := Vec3.one }] ∧
    (setup_lights s).objects.length = s.objects.length + 5 := by
  have h : (setup_lights s).objects =
      (s.objects ++
        [{ name := "Center_Light", otype := ObjType.light, verts := [], energy := 200,
           location := ⟨0, 0, 2⟩, scale := Vec3.one }]) ++
      [{ name := "Diagonal_Light_1", otype := ObjType.light, verts := [], energy := 150,
         location := ⟨-2, -2, 2⟩, scale := Vec3.one },
       { name := "Diagonal_Light_2", otype := ObjType.light, verts := [], energy := 150,
         location := ⟨2, -2, 2⟩, scale := Vec3.one },
       { name := "Diagonal_Light_3", otype := ObjType.light, verts := [], energy := 150,
         location := ⟨-2, 2, 2⟩, scale := Vec3.one },
       { name := "Diagonal_Light_4", otype := ObjType.light, verts := [], energy := 150,
         location := ⟨2, 2, 2⟩, scale := Vec3.one }] := rfl
  constructor
  · rw [h, List.append_assoc]
    rfl
  · rw [h]
    simp

/-! ### C8: camera placement on the orbit -/

/-- C8.  For every frame of the orbit loop and configured distance `d`, the
camera position of that iteration is `(d·cos θ, d·sin θ, 0)` with `θ` the
frame's angle converted from degrees to radians, after which the camera is
oriented toward the origin (its tracking direction is the origin minus the
camera location). -/
theorem camera_position_spec (dirs : List String) (output_dir : String)
    (angle_step : ℕ) (distance : ℝ) :
    ∀ f ∈ (render_views dirs output_dir angle_step).2,
      camera_location distance f.angle =
        (distance * Real.cos ((f.angle : ℝ) * Real.pi / 180),
         distance * Real.sin ((f.angle : ℝ) * Real.pi / 180), 0) ∧
      camera_track_direction distance f.angle =
        (0 - (camera_location distance f.angle).1,
         0 - (camera_location distance f.angle).2.1,
         0 - (camera_location distance f.angle).2.2) := by
  intro f _
  exact ⟨rfl, rfl⟩

/-- Witness for C8 at the first frame of a 30° orbit with distance 8. -/
theorem camera_position_spec_witness :
    (⟨0, "angle_000.png", "out/angle_000.png"⟩ : Frame) ∈ (render_views [] "out" 30).2 ∧
    (camera_location 8 (⟨0, "angle_000.png", "out/angle_000.png"⟩ : Frame).angle =
        (8 * Real.cos (((⟨0, "angle_000.png", "out/angle_000.png"⟩ : Frame).angle : ℝ) *
            Real.pi / 180),
         8 * Real.sin (((⟨0, "angle_000.png", "out/angle_000.png"⟩ : Frame).angle : ℝ) *
            Real.pi / 180), 0) ∧
      camera_track_direction 8 (⟨0, "angle_000.png", "out/angle_000.png"⟩ : Frame).angle =
        (0 - (camera_location 8 (⟨0, "angle_000.png", "out/angle_000.png"⟩ : Frame).angle).1,
         0 - (camera_location 8 (⟨0, "angle_000.png", "out/angle_000.png"⟩ : Frame).angle).2.1,
         0 - (camera_location 8 (⟨0, "angle_000.png", "out/angle_000.png"⟩ : Frame).angle).2.2)) := by
  have h0 : (0 : ℕ) ∈ range_step 0 360 30 := by decide
  have hm : (⟨0, "angle_000.png", "out/angle_000.png"⟩ : Frame) ∈
      (render_views [] "out" 30).2 := List.mem_map_of_mem _ h0
  exact ⟨hm, camera_position_spec [] "out" 30 8 _ hm⟩

/-! ### C9: the example.py trace -/

/-- C9.  The asset-generation script runs inference exactly once, with seed 1;
it renders the color channel of the gaussian and radiance-field
representations and the normal channel of the mesh representation; it exports
exactly one GLB (simplify 0.95, texture size 1024) and one PLY; and every
access to a generated representation is at list index 0. -/
theorem example_script_spec :
    example_script.filter
        (fun a => match a with | ExAction.runInference _ => true | _ => false)
      = [ExAction.runInference 1] ∧
    (∀ a ∈ example_script, ∀ i ∈ a.accessed_indices, i = 0) ∧
    example_script.filter
        (fun a => match a with | ExAction.renderVideo _ _ _ => true | _ => false)
      = [ExAction.renderVideo RepKind.gaussian 0 Channel.color,
         ExAction.renderVideo RepKind.radianceField 0 Channel.color,
         ExAction.renderVideo RepKind.mesh 0 Channel.normal] ∧
    example_script.filter
        (fun a => match a with | ExAction.exportGlb _ _ _ _ _ => true | _ => false)
      = [ExAction.exportGlb 0 0 (95 / 100) 1024 (base_filename ++ ".glb")] ∧
    example_script.filter
        (fun a => match a with | ExAction.savePly _ _ => true | _ => false)
      = [ExAction.savePly 0 (base_filename ++ ".ply")] := by
  refine ⟨rfl, ?_, rfl, rfl, rfl⟩
  decide

/-! ### C10: the loader is not atomic on the unsupported-format error -/

/-- C10.  When `load_3Dmodel` fails with `FileNotFound` the scene is exactly
the one passed in (the existence check precedes the reset); when it fails
with `UnsupportedFormat` the destructive reset has already happened and the
error state is the empty factory scene, whatever the scene held before. -/
theorem load_3Dmodel_reset_spec (ex : String → Bool)
    (imp : Importer → String → List BObject) (file_path : String) (s : Scene) :
    (∀ s2, load_3Dmodel ex imp file_path s = .error (.fileNotFound, s2) → s2 = s) ∧
    (∀ s2, load_3Dmodel ex imp file_path s = .error (.unsupportedFormat, s2) →
      s2 = emptyScene) := by
  constructor <;> intro s2 h <;> simp only [load_3Dmodel] at h <;>
    (repeat' split at h) <;> simp_all

/-! ### C7: mesh consolidation and the downstream gate -/

/-- C7.  With no mesh objects in the scene, `combine_objects` reports the
condition, leaves the scene unchanged and returns `none`, and the main
pipeline runs none of the downstream steps; with at least one mesh object it
returns a merged `"Combined_Object"` whose geometry is each input's vertices
with that input's transform baked in, and the downstream steps all run. -/
theorem combine_objects_spec (s : Scene) :
    (s.objects.filter (fun o => o.otype == ObjType.mesh) = [] →
      (combine_objects s).combined = none ∧
      (combine_objects s).scene = s ∧
      (combine_objects s).msgs =
        ["No mesh objects found. Ensure the model is correctly imported!"] ∧
      (main_pipeline s).2 = []) ∧
    (∀ o rest, s.objects.filter (fun m => m.otype == ObjType.mesh) = o :: rest →
      ∃ c, (combine_objects s).combined = some c ∧
        c.name = "Combined_Object" ∧
        c.verts = ((o :: rest).map (fun m =>
          m.verts.map (fun v => m.location + m.scale.hadamard v))).flatten ∧
        c.location = Vec3.zero ∧ c.scale = Vec3.one ∧
        (main_pipeline s).2 =
          [PipelineStep.normalizeStep, PipelineStep.recenterStep,
           PipelineStep.lightsStep, PipelineStep.renderStep,
           PipelineStep.saveStep]) := by
  constructor
  · intro h
    refine ⟨?_, ?_, ?_, ?_⟩ <;> simp [combine_objects, main_pipeline, h]
  · intro o rest h
    have hc : (combine_objects s).combined = some
        { name := "Combined_Object", otype := ObjType.mesh,
          verts := ((o :: rest).map (fun m =>
            m.verts.map (fun v => m.location + m.scale.hadamard v))).flatten,
          energy := 0, location := Vec3.zero, scale := Vec3.one } := by
      simp only [combine_objects, h, List.map_map]
      rfl
    have hm : (main_pipeline s).2 =
        [PipelineStep.normalizeStep, PipelineStep.recenterStep,
         PipelineStep.lightsStep, PipelineStep.renderStep,
         PipelineStep.saveStep] := by
      simp only [main_pipeline, hc]
    exact ⟨_, hc, rfl, rfl, rfl, rfl, hm⟩

/-- Witness for C7: a scene with one light only (no meshes) takes the `none`
branch and runs no downstream step; a scene with one mesh yields the merged
object. -/
theorem combine_objects_spec_witness :
    ((⟨[⟨"L", ObjType.light, [], 10, Vec3.zero, Vec3.one⟩]⟩ : Scene).objects.filter
        (fun o => o.otype == ObjType.mesh) = [] ∧
      (combine_objects ⟨[⟨"L", ObjType.light, [], 10, Vec3.zero, Vec3.one⟩]⟩).combined = none ∧
      (main_pipeline ⟨[⟨"L", ObjType.light, [], 10, Vec3.zero, Vec3.one⟩]⟩).2 = []) ∧
    ((⟨[⟨"M", ObjType.mesh, [⟨1, 0, 0⟩], 0, Vec3.zero, Vec3.one⟩]⟩ : Scene).objects.filter
        (fun m => m.otype == ObjType.mesh) = [⟨"M", ObjType.mesh, [⟨1, 0, 0⟩], 0, Vec3.zero, Vec3.one⟩] ∧
      ∃ c, (combine_objects ⟨[⟨"M", ObjType.mesh, [⟨1, 0, 0⟩], 0, Vec3.zero, Vec3.one⟩]⟩).combined = some c ∧
        c.name = "Combined_Object") := by
  constructor
  · have h := (combine_objects_spec ⟨[⟨"L", ObjType.light, [], 10, Vec3.zero, Vec3.one⟩]⟩).1
      (by decide)
    exact ⟨by decide, h.1, h.2.2.2⟩
  · have h := (combine_objects_spec ⟨[⟨"M", ObjType.mesh, [⟨1, 0, 0⟩], 0, Vec3.zero, Vec3.one⟩]⟩).2
      ⟨"M", ObjType.mesh, [⟨1, 0, 0⟩], 0, Vec3.zero, Vec3.one⟩ [] (by decide)
    obtain ⟨c, hc, hname, _⟩ := h
    exact ⟨by decide, c, hc, hname⟩

/-- Witness for C10: with the file absent the error carries the untouched
input scene; with an unsupported extension the error carries the emptied
scene, even though the input scene was nonempty. -/
theorem load_3Dmodel_reset_spec_witness :
    load_3Dmodel (fun _ => false) (fun _ _ => [])
        "m.obj" ⟨[⟨"X", ObjType.mesh, [], 0, Vec3.zero, Vec3.one⟩]⟩ =
      .error (.fileNotFound, ⟨[⟨"X", ObjType.mesh, [], 0, Vec3.zero, Vec3.one⟩]⟩) ∧
    load_3Dmodel (fun _ => true) (fun _ _ => [])
        "m.xyz" ⟨[⟨"X", ObjType.mesh, [], 0, Vec3.zero, Vec3.one⟩]⟩ =
      .error (.unsupportedFormat, emptyScene) ∧
    (⟨[⟨"X", ObjType.mesh, [], 0, Vec3.zero, Vec3.one⟩]⟩ : Scene) =
      ⟨[⟨"X", ObjType.mesh, [], 0, Vec3.zero, Vec3.one⟩]⟩ ∧
    emptyScene = emptyScene := by
  have h1 : load_3Dmodel (fun _ => false) (fun _ _ => [])
      "m.obj" ⟨[⟨"X", ObjType.mesh, [], 0, Vec3.zero, Vec3.one⟩]⟩ =
      .error (.fileNotFound, ⟨[⟨"X", ObjType.mesh, [], 0, Vec3.zero, Vec3.one⟩]⟩) := rfl
  have h2 : load_3Dmodel (fun _ => true) (fun _ _ => [])
      "m.xyz" ⟨[⟨"X", ObjType.mesh, [], 0, Vec3.zero, Vec3.one⟩]⟩ =
      .error (.unsupportedFormat, emptyScene) := rfl
  exact ⟨h1, h2, (load_3Dmodel_reset_spec _ _ _ _).1 _ h1,
    (load_3Dmodel_reset_spec _ _ _ _).2 _ h2⟩

/-! ### C6: loader error contract and dispatch -/

/-- C6.  `load_3Dmodel` raises `FileNotFound` exactly when the path does not
exist; it raises `UnsupportedFormat` exactly when the path exists but the
lower-cased extension is none of the six supported ones; otherwise it
dispatches to the importer for that extension (and the Python function
returns `None`). -/
theorem load_3Dmodel_spec (ex : String → Bool) (imp : Importer → String → List BObject)
    (file_path : String) (s : Scene) :
    ((∃ s2, load_3Dmodel ex imp file_path s = .error (.fileNotFound, s2)) ↔
      ex file_path = false) ∧
    ((∃ s2, load_3Dmodel ex imp file_path s = .error (.unsupportedFormat, s2)) ↔
      (ex file_path = true ∧
        strToLower (splitext file_path).2 ∉
          ([".blend", ".obj", ".fbx", ".stl", ".glb", ".gltf"] : List String))) ∧
    (ex file_path = true →
      (strToLower (splitext file_path).2 = ".blend" →
        load_3Dmodel ex imp file_path s = .ok (.blend, ⟨imp .blend file_path⟩)) ∧
      (strToLower (splitext file_path).2 = ".obj" →
        load_3Dmodel ex imp file_path s = .ok (.obj, ⟨imp .obj file_path⟩)) ∧
      (strToLower (splitext file_path).2 = ".fbx" →
        load_3Dmodel ex imp file_path s = .ok (.fbx, ⟨imp .fbx file_path⟩)) ∧
      (strToLower (splitext file_path).2 = ".stl" →
        load_3Dmodel ex imp file_path s = .ok (.stl, ⟨imp .stl file_path⟩)) ∧
      (strToLower (splitext file_path).2 = ".glb" ∨
          strToLower (splitext file_path).2 = ".gltf" →
        load_3Dmodel ex imp file_path s = .ok (.gltf, ⟨imp .gltf file_path⟩))) := by
  cases hex : ex file_path
  · refine ⟨?_, ?_, ?_⟩
    · simp [load_3Dmodel, hex]
    · simp [load_3Dmodel, hex]
    · intro hcontra
      simp [hex] at hcontra
  · refine ⟨?_, ?_, ?_⟩
    · simp only [load_3Dmodel, hex, Bool.true_eq_false, if_false]
      constructor
      · rintro ⟨s2, h⟩
        repeat' split at h
        all_goals simp_all
      · intro h
        simp at h
    · simp only [load_3Dmodel, hex, Bool.true_eq_false, if_false, true_and,
        List.mem_cons, List.mem_singleton, List.not_mem_nil, or_false]
      constructor
      · rintro ⟨s2, h⟩
        repeat' split at h
        all_goals simp_all
      · intro h
        push_neg at h
        obtain ⟨h1, h2, h3, h4, h5, h6⟩ := h
        refine ⟨emptyScene, ?_⟩
        simp [h1, h2, h3, h4, h5, h6]
    · intro _
      refine ⟨?_, ?_, ?_, ?_, ?_⟩ <;> intro he
      · simp [load_3Dmodel, hex, he]
      · have hne : ¬ strToLower (splitext file_path).2 = ".blend" := by
          rw [he]; decide
        simp [load_3Dmodel, hex, he, hne]
      · have h1 : ¬ strToLower (splitext file_path).2 = ".blend" := by rw [he]; decide
        have h2 : ¬ strToLower (splitext file_path).2 = ".obj" := by rw [he]; decide
        simp [load_3Dmodel, hex, he, h1, h2]
      · have h1 : ¬ strToLower (splitext file_path).2 = ".blend" := by rw [he]; decide
        have h2 : ¬ strToLower (splitext file_path).2 = ".obj" := by rw [he]; decide
        have h3 : ¬ strToLower (splitext file_path).2 = ".fbx" := by rw [he]; decide
        simp [load_3Dmodel, hex, he, h1, h2, h3]
      · rcases he with he | he <;>
          [(have h1 : ¬ strToLower (splitext file_path).2 = ".blend" := by rw [he]; decide
            have h2 : ¬ strToLower (splitext file_path).2 = ".obj" := by rw [he]; decide
            have h3 : ¬ strToLower (splitext file_path).2 = ".fbx" := by rw [he]; decide
            have h4 : ¬ strToLower (splitext file_path).2 = ".stl" := by rw [he]; decide
            simp [load_3Dmodel, hex, he, h1, h2, h3, h4]);
           (have h1 : ¬ strToLower (splitext file_path).2 = ".blend" := by rw [he]; decide
            have h2 : ¬ strToLower (splitext file_path).2 = ".obj" := by rw [he]; decide
            have h3 : ¬ strToLower (splitext file_path).2 = ".fbx" := by rw [he]; decide
            have h4 : ¬ strToLower (splitext file_path).2 = ".stl" := by rw [he]; decide
            simp [load_3Dmodel, hex, he, h1, h2, h3, h4])]

/-- Witness for C6: a missing file raises `FileNotFound`; an existing `.xyz`
file raises `UnsupportedFormat`; an existing `.OBJ` file (upper case)
dispatches to the OBJ importer. -/
theorem load_3Dmodel_spec_witness :
    (∃ s2, load_3Dmodel (fun _ => false) (fun _ _ => []) "car.obj" emptyScene =
        .error (.fileNotFound, s2)) ∧
    (∃ s2, load_3Dmodel (fun _ => true) (fun _ _ => []) "m.xyz" emptyScene =
        .error (.unsupportedFormat, s2)) ∧
    load_3Dmodel (fun _ => true) (fun _ _ => []) "m.OBJ" emptyScene =
      .ok (.obj, ⟨[]⟩) := by
  refine ⟨?_, ?_, ?_⟩
  · exact (load_3Dmodel_spec _ _ _ _).1.mpr rfl
  · exact (load_3Dmodel_spec _ _ _ _).2.1.mpr ⟨rfl, by decide⟩
  · exact ((load_3Dmodel_spec (fun _ => true) (fun _ _ => []) "m.OBJ" emptyScene).2.2
      rfl).2.1 (by decide)

/-! ### C5: model-path resolution -/

lemma filterMap_if_eq_map_filter {α β : Type} (p : α → Bool) (g : α → β)
    (l : List α) :
    l.filterMap (fun a => if p a then some (g a) else none) = (l.filter p).map g := by
  induction l with
  | nil => rfl
  | cons a t ih => by_cases hpa : p a <;> simp [hpa, ih]

/-- C5.  `get_model_path_from_args`: candidate files are collected in the
fixed extension order; no usable argument after `"--"` (or no `"--"` at all)
falls back to `car.blend`; for an extensionless filename, zero matches raise
`FileNotFound`, a single match is returned, and several matches return the
first one found, reporting the ambiguity. -/
theorem get_model_path_from_args_spec (ex : String → Bool) (argv : List String)
    (script_dir : String) :
    (∀ fname, potential_files ex (script_dir ++ "/model") fname =
      (model_extensions.filter (fun e =>
        ex (script_dir ++ "/model" ++ "/" ++ (fname ++ e)))).map (fun e =>
        script_dir ++ "/model" ++ "/" ++ (fname ++ e))) ∧
    (argv.indexOf? "--" = none →
      get_model_path_from_args ex argv script_dir =
        .ok ⟨script_dir ++ "/model" ++ "/car.blend", "car", false⟩) ∧
    (∀ idx, argv.indexOf? "--" = some idx → ¬ idx + 1 < argv.length →
      get_model_path_from_args ex argv script_dir =
        .ok ⟨script_dir ++ "/model" ++ "/car.blend", "car", false⟩) ∧
    (∀ idx, argv.indexOf? "--" = some idx → idx + 1 < argv.length →
      (splitext (argv.getD (idx + 1) "")).2 = "" →
      (potential_files ex (script_dir ++ "/model") (argv.getD (idx + 1) "") = [] →
        get_model_path_from_args ex argv script_dir = .error .fileNotFound) ∧
      (∀ p, potential_files ex (script_dir ++ "/model") (argv.getD (idx + 1) "") = [p] →
        get_model_path_from_args ex argv script_dir =
          .ok ⟨p, (splitext (basename p)).1, false⟩) ∧
      (∀ p q rest,
        potential_files ex (script_dir ++ "/model") (argv.getD (idx + 1) "")
            = p :: q :: rest →
        get_model_path_from_args ex argv script_dir =
          .ok ⟨p, (splitext (basename p)).1, true⟩)) := by
  refine ⟨?_, ?_, ?_, ?_⟩
  · intro fname
    exact filterMap_if_eq_map_filter _ _ _
  · intro h
    simp [get_model_path_from_args, h]
  · intro idx hidx hlen
    simp [get_model_path_from_args, hidx, hlen]
  · intro idx hidx hlen hsp
    have hge : argv.getD (idx + 1) "" = argv[idx + 1] := List.getD_eq_getElem _ _ hlen
    rw [hge] at hsp
    refine ⟨?_, ?_, ?_⟩
    · intro hpf
      rw [hge] at hpf
      simp [get_model_path_from_args, hidx, hlen, hsp, hpf]
    · intro p hpf
      rw [hge] at hpf
      simp [get_model_path_from_args, hidx, hlen, hsp, hpf]
    · intro p q rest hpf
      rw [hge] at hpf
      simp [get_model_path_from_args, hidx, hlen, hsp, hpf]

/-- Witness for C5: the fallback cases, the zero-match error, the one-match
resolution, and the two-match first-in-extension-order resolution with the
ambiguity notice. -/
theorem get_model_path_from_args_spec_witness :
    get_model_path_from_args (fun _ => false) ["x"] "SD" =
      .ok ⟨"SD" ++ "/model" ++ "/car.blend", "car", false⟩ ∧
    get_model_path_from_args (fun _ => false) ["--"] "SD" =
      .ok ⟨"SD" ++ "/model" ++ "/car.blend", "car", false⟩ ∧
    get_model_path_from_args (fun _ => false) ["--", "car"] "SD" =
      .error .fileNotFound ∧
    get_model_path_from_args (fun p => p == "SD/model/car.fbx") ["--", "car"] "SD" =
      .ok ⟨"SD/model/car.fbx", (splitext (basename "SD/model/car.fbx")).1, false⟩ ∧
    get_model_path_from_args
        (fun p => p == "SD/model/car.obj" || p == "SD/model/car.fbx")
        ["--", "car"] "SD" =
      .ok ⟨"SD/model/car.obj", (splitext (basename "SD/model/car.obj")).1, true⟩ := by
  refine ⟨?_, ?_, ?_, ?_, ?_⟩
  · exact (get_model_path_from_args_spec _ _ _).2.1 (by decide)
  · exact (get_model_path_from_args_spec _ _ _).2.2.1 0 (by decide) (by decide)
  · exact ((get_model_path_from_args_spec _ _ _).2.2.2 0 (by decide) (by decide)
      (by decide)).1 (by decide)
  · exact ((get_model_path_from_args_spec _ _ _).2.2.2 0 (by decide) (by decide)
      (by decide)).2.1 _ (by decide)
  · exact ((get_model_path_from_args_spec _ _ _).2.2.2 0 (by decide) (by decide)
      (by decide)).2.2 "SD/model/car.obj" "SD/model/car.fbx" [] (by decide)

/-! ### C1: size normalization -/

lemma foldl_min_le_init (t : List ℚ) : ∀ a, t.foldl min a ≤ a := by
  induction t with
  | nil => intro a; exact le_refl a
  | cons b t ih => intro a; exact le_trans (ih (min a b)) (min_le_left a b)

lemma init_le_foldl_max (t : List ℚ) : ∀ a, a ≤ t.foldl max a := by
  induction t with
  | nil => intro a; exact le_refl a
  | cons b t ih => intro a; exact le_trans (le_max_left a b) (ih (max a b))

lemma listMin_le_listMax (l : List ℚ) : listMin l ≤ listMax l := by
  cases l with
  | nil => exact le_refl 0
  | cons a t => exact le_trans (foldl_min_le_init t a) (init_le_foldl_max t a)

lemma extent_nonneg (l : List ℚ) : 0 ≤ extent l :=
  sub_nonneg.mpr (listMin_le_listMax l)

lemma mul_max_nonpos (c a b : ℚ) (hc : c ≤ 0) : c * max a b = min (c * a) (c * b) := by
  simpa [smul_eq_mul] using smul_max_of_nonpos hc a b

lemma mul_min_nonpos (c a b : ℚ) (hc : c ≤ 0) : c * min a b = max (c * a) (c * b) := by
  simpa [smul_eq_mul] using smul_min_of_nonpos hc a b

lemma foldl_max_map_nonneg (c : ℚ) (hc : 0 ≤ c) (t : List ℚ) :
    ∀ a, (t.map (fun v => c * v)).foldl max (c * a) = c * t.foldl max a := by
  induction t with
  | nil => intro a; rfl
  | cons b t ih =>
      intro a
      simp only [List.map_cons, List.foldl_cons]
      rw [← mul_max_of_nonneg a b hc]
      exact ih (max a b)

lemma foldl_min_map_nonneg (c : ℚ) (hc : 0 ≤ c) (t : List ℚ) :
    ∀ a, (t.map (fun v => c * v)).foldl min (c * a) = c * t.foldl min a := by
  induction t with
  | nil => intro a; rfl
  | cons b t ih =>
      intro a
      simp only [List.map_cons, List.foldl_cons]
      rw [← mul_min_of_nonneg a b hc]
      exact ih (min a b)

lemma foldl_max_map_nonpos (c : ℚ) (hc : c ≤ 0) (t : List ℚ) :
    ∀ a, (t.map (fun v => c * v)).foldl max (c * a) = c * t.foldl min a := by
  induction t with
  | nil => intro a; rfl
  | cons b t ih =>
      intro a
      simp only [List.map_cons, List.foldl_cons]
      rw [← mul_min_nonpos c a b hc]
      exact ih (min a b)

lemma foldl_min_map_nonpos (c : ℚ) (hc : c ≤ 0) (t : List ℚ) :
    ∀ a, (t.map (fun v => c * v)).foldl min (c * a) = c * t.foldl max a := by
  induction t with
  | nil => intro a; rfl
  | cons b t ih =>
      intro a
      simp only [List.map_cons, List.foldl_cons]
      rw [← mul_max_nonpos c a b hc]
      exact ih (max a b)

lemma listMax_map_nonneg (c : ℚ) (hc : 0 ≤ c) (l : List ℚ) :
    listMax (l.map (fun v => c * v)) = c * listMax l := by
  cases l with
  | nil => simp [listMax]
  | cons a t => exact foldl_max_map_nonneg c hc t a

lemma listMin_map_nonneg (c : ℚ) (hc : 0 ≤ c) (l : List ℚ) :
    listMin (l.map (fun v => c * v)) = c * listMin l := by
  cases l with
  | nil => simp [listMin]
  | cons a t => exact foldl_min_map_nonneg c hc t a

lemma listMax_map_nonpos (c : ℚ) (hc : c ≤ 0) (l : List ℚ) :
    listMax (l.map (fun v => c * v)) = c * listMin l := by
  cases l with
  | nil => simp [listMax, listMin]
  | cons a t => exact foldl_max_map_nonpos c hc t a

lemma listMin_map_nonpos (c : ℚ) (hc : c ≤ 0) (l : List ℚ) :
    listMin (l.map (fun v => c * v)) = c * listMax l := by
  cases l with
  | nil => simp [listMax, listMin]
  | cons a t => exact foldl_min_map_nonpos c hc t a

/-- Scaling every coordinate by `c` scales the extent by `|c|`. -/
lemma extent_map_mul (c : ℚ) (l : List ℚ) :
    extent (l.map (fun v => c * v)) = |c| * extent l := by
  rcases le_total 0 c with hc | hc
  · rw [extent, extent, listMax_map_nonneg c hc l, listMin_map_nonneg c hc l,
      abs_of_nonneg hc]
    ring
  · rw [extent, extent, listMax_map_nonpos c hc l, listMin_map_nonpos c hc l,
      abs_of_nonpos hc]
    ring

lemma max_dimension_nonneg (o : BObject) : 0 ≤ max_dimension o := by
  have hx : 0 ≤ |o.scale.x| * extent (o.verts.map (fun v => v.x)) :=
    mul_nonneg (abs_nonneg _) (extent_nonneg _)
  exact le_trans hx (le_max_left _ _)

lemma smulc_hadamard (c : ℚ) (s v : Vec3) :
    (Vec3.smulc c s).hadamard v = Vec3.smulc c (s.hadamard v) := by
  simp [Vec3.smulc, Vec3.hadamard, mul_assoc]

/-- Baking a uniformly rescaled per-axis scale into the vertices multiplies
the maximum dimension by `|c|`. -/
lemma max_dimension_hadamard_scaled (o : BObject) (c : ℚ) :
    max_dimension { o with verts := o.verts.map (fun v =>
        (Vec3.smulc c o.scale).hadamard v), scale := Vec3.one } =
      |c| * max_dimension o := by
  have hx := extent_map_mul (c * o.scale.x) (o.verts.map (fun v => v.x))
  have hy := extent_map_mul (c * o.scale.y) (o.verts.map (fun v => v.y))
  have hz := extent_map_mul (c * o.scale.z) (o.verts.map (fun v => v.z))
  simp only [List.map_map, Function.comp_def] at hx hy hz
  simp only [max_dimension, BObject.dimensions, List.map_map, Function.comp_def,
    Vec3.hadamard, Vec3.smulc, Vec3.one, abs_one, one_mul]
  rw [hx, hy, hz, abs_mul, abs_mul, abs_mul,
    mul_max_of_nonneg _ _ (abs_nonneg c), mul_max_of_nonneg _ _ (abs_nonneg c)]
  simp only [mul_assoc]

/-- C1.  `normalize_model_size`: with a zero maximum extent it warns and
leaves the object unchanged; with a nonzero maximum extent and target
`t > 0` it rescales uniformly (the world geometry is multiplied by the single
factor `t / max_dimension`), bakes the scale into the vertices (final scale
is the identity, the location untouched), and the maximum bounding-box
extent afterwards is exactly `t`. -/
theorem normalize_model_size_spec (obj : BObject) (t : ℚ) :
    (max_dimension obj = 0 → normalize_model_size obj t = (obj, true)) ∧
    (max_dimension obj ≠ 0 → 0 < t →
      (normalize_model_size obj t).2 = false ∧
      (normalize_model_size obj t).1.scale = Vec3.one ∧
      (normalize_model_size obj t).1.location = obj.location ∧
      (normalize_model_size obj t).1.verts = obj.verts.map (fun v =>
        Vec3.smulc (t / max_dimension obj) (obj.scale.hadamard v)) ∧
      max_dimension (normalize_model_size obj t).1 = t) := by
  constructor
  · intro h
    simp [normalize_model_size, h]
  · intro h ht
    have hm_pos : 0 < max_dimension obj :=
      lt_of_le_of_ne (max_dimension_nonneg obj) (Ne.symm h)
    have hc_pos : 0 < t / max_dimension obj := div_pos ht hm_pos
    have hr : (normalize_model_size obj t).1 =
        { obj with verts := obj.verts.map (fun v =>
            (Vec3.smulc (t / max_dimension obj) obj.scale).hadamard v), scale := Vec3.one } := by
      simp [normalize_model_size, h, BObject.transform_apply]
    refine ⟨?_, ?_, ?_, ?_, ?_⟩
    · simp [normalize_model_size, h]
    · rw [hr]
    · rw [hr]
    · rw [hr]
      simp only [smulc_hadamard]
    · rw [hr, max_dimension_hadamard_scaled obj (t / max_dimension obj),
        abs_of_pos hc_pos, div_mul_cancel₀ t (ne_of_gt hm_pos)]

/-- Witness for C1: a two-vertex mesh of extents `(1, 2, 4)` and target 2 is
rescaled to maximum extent 2 with the scale baked; a point mesh is left
unchanged with the warning flag set. -/
theorem normalize_model_size_spec_witness :
    (max_dimension ⟨"o", ObjType.mesh, [⟨0, 0, 0⟩, ⟨1, 2, 4⟩], 0, ⟨3, 5, 7⟩, ⟨1, 1, 1⟩⟩ ≠ 0 ∧
      (0 : ℚ) < 2 ∧
      (normalize_model_size
          ⟨"o", ObjType.mesh, [⟨0, 0, 0⟩, ⟨1, 2, 4⟩], 0, ⟨3, 5, 7⟩, ⟨1, 1, 1⟩⟩ 2).2 = false ∧
      (normalize_model_size
          ⟨"o", ObjType.mesh, [⟨0, 0, 0⟩, ⟨1, 2, 4⟩], 0, ⟨3, 5, 7⟩, ⟨1, 1, 1⟩⟩ 2).1.scale =
        Vec3.one ∧
      max_dimension (normalize_model_size
          ⟨"o", ObjType.mesh, [⟨0, 0, 0⟩, ⟨1, 2, 4⟩], 0, ⟨3, 5, 7⟩, ⟨1, 1, 1⟩⟩ 2).1 = 2) ∧
    (max_dimension ⟨"p", ObjType.mesh, [⟨1, 1, 1⟩], 0, ⟨0, 0, 0⟩, ⟨1, 1, 1⟩⟩ = 0 ∧
      normalize_model_size ⟨"p", ObjType.mesh, [⟨1, 1, 1⟩], 0, ⟨0, 0, 0⟩, ⟨1, 1, 1⟩⟩ 2 =
        (⟨"p", ObjType.mesh, [⟨1, 1, 1⟩], 0, ⟨0, 0, 0⟩, ⟨1, 1, 1⟩⟩, true)) := by
  have hnz : max_dimension
      ⟨"o", ObjType.mesh, [⟨0, 0, 0⟩, ⟨1, 2, 4⟩], 0, ⟨3, 5, 7⟩, ⟨1, 1, 1⟩⟩ ≠ 0 := by
    norm_num [max_dimension, BObject.dimensions, extent, listMax, listMin]
  have hz : max_dimension
      ⟨"p", ObjType.mesh, [⟨1, 1, 1⟩], 0, ⟨0, 0, 0⟩, ⟨1, 1, 1⟩⟩ = 0 := by
    norm_num [max_dimension, BObject.dimensions, extent, listMax, listMin]
  constructor
  · have h := (normalize_model_size_spec
        ⟨"o", ObjType.mesh, [⟨0, 0, 0⟩, ⟨1, 2, 4⟩], 0, ⟨3, 5, 7⟩, ⟨1, 1, 1⟩⟩ 2).2
      hnz (by decide)
    exact ⟨hnz, by decide, h.1, h.2.1, h.2.2.2.2⟩
  · exact ⟨hz, (normalize_model_size_spec
      ⟨"p", ObjType.mesh, [⟨1, 1, 1⟩], 0, ⟨0, 0, 0⟩, ⟨1, 1, 1⟩⟩ 2).1 hz⟩

/-! ### C2: the orbit render loop -/

lemma range_step_aux_eq (step : ℕ) (hs : 0 < step) :
    ∀ (fuel start stop : ℕ), stop - start ≤ fuel →
      range_step_aux fuel start stop step =
        (List.range ((stop - start + step - 1) / step)).map (fun i => start + i * step) := by
  intro fuel
  induction fuel with
  | zero =>
      intro start stop hle
      have h0 : stop - start = 0 := Nat.le_zero.mp hle
      rw [range_step_aux, h0]
      rw [Nat.div_eq_of_lt (by omega)]
      rfl
  | succ fuel ih =>
      intro start stop hle
      by_cases hlt : start < stop
      · rw [range_step_aux, if_pos hlt, ih (start + step) stop (by omega)]
        have harith : (stop - start + step - 1) / step
            = (stop - (start + step) + step - 1) / step + 1 := by
          rcases le_or_lt step (stop - start) with hge | hlt2
          · have h2 : stop - start + step - 1 = (stop - (start + step) + step - 1) + step := by
              omega
            rw [h2, Nat.add_div_right _ hs]
          · have h2 : stop - start + step - 1 = (stop - start - 1) + step := by omega
            have h3 : stop - (start + step) = 0 := by omega
            rw [h2, Nat.add_div_right _ hs, h3, Nat.div_eq_of_lt (by omega),
              Nat.div_eq_of_lt (by omega)]
        rw [harith, List.range_succ_eq_map]
        simp only [List.map_cons, List.map_map, Function.comp_def]
        congr 1
        · omega
        · apply List.map_congr_left
          intro i _
          simp only [Nat.succ_mul, Nat.succ_eq_add_one, Nat.add_mul, Nat.one_mul]
          ring
      · rw [range_step_aux, if_neg hlt]
        have h0 : stop - start = 0 := by omega
        rw [h0, Nat.div_eq_of_lt (by omega)]
        rfl

lemma range_step_eq (step : ℕ) (hs : 0 < step) (hdvd : step ∣ 360) :
    range_step 0 360 step = (List.range (360 / step)).map (fun i => i * step) := by
  obtain ⟨q, hq⟩ := hdvd
  rw [range_step, if_pos hs, range_step_aux_eq step hs (360 - 0) 0 360 (by omega)]
  have h1 : (360 - 0 + step - 1) / step = 360 / step := by
    have h2 : 360 - 0 + step - 1 = step * q + (step - 1) := by omega
    rw [h2, Nat.mul_add_div hs, Nat.div_eq_of_lt (by omega), hq,
      Nat.mul_div_cancel_left q hs]
    omega
  rw [h1]
  apply List.map_congr_left
  intro i _
  omega

lemma digitChar_lt : ∀ a, a < 10 → ∀ b, b < 10 → a < b →
    Nat.digitChar a < Nat.digitChar b := by decide

lemma pad3_toList (n : ℕ) : (pad3 n).toList =
    [Nat.digitChar (n / 100), Nat.digitChar (n / 10 % 10), Nat.digitChar (n % 10)] := rfl

/-- Zero-padding to three digits is strictly monotone (in lexicographic
character order) below 1000. -/
lemma pad3_lex (m n : ℕ) (hmn : m < n) (hn : n < 1000) :
    List.Lex (fun c d : Char => c < d) (pad3 m).toList (pad3 n).toList := by
  have hm : m < 1000 := lt_trans hmn hn
  have h1 : m / 100 ≤ n / 100 := Nat.div_le_div_right (le_of_lt hmn)
  rw [pad3_toList, pad3_toList]
  rcases lt_or_eq_of_le h1 with h1lt | h1eq
  · exact List.Lex.rel (digitChar_lt _ (by omega) _ (by omega) h1lt)
  · rw [h1eq]
    apply List.Lex.cons
    have h2 : m % 100 < n % 100 := by omega
    have h2b : m / 10 % 10 = m % 100 / 10 := by omega
    have h2c : n / 10 % 10 = n % 100 / 10 := by omega
    have h3 : m % 100 / 10 ≤ n % 100 / 10 := Nat.div_le_div_right (le_of_lt h2)
    rcases lt_or_eq_of_le h3 with h3lt | h3eq
    · apply List.Lex.rel
      rw [h2b, h2c]
      exact digitChar_lt _ (by omega) _ (by omega) h3lt
    · rw [h2b, h2c, h3eq]
      apply List.Lex.cons
      apply List.Lex.rel
      exact digitChar_lt _ (by omega) _ (by omega) (by omega)

lemma lex_append_left_chars (p a b : List Char)
    (h : List.Lex (fun c d : Char => c < d) a b) :
    List.Lex (fun c d : Char => c < d) (p ++ a) (p ++ b) := by
  induction p with
  | nil => exact h
  | cons c cs ih => exact List.Lex.cons ih

lemma lex_append_of_length_eq (a b s t : List Char)
    (h : List.Lex (fun c d : Char => c < d) a b) (hl : a.length = b.length) :
    List.Lex (fun c d : Char => c < d) (a ++ s) (b ++ t) := by
  induction h with
  | nil => simp at hl
  | rel hcd => exact List.Lex.rel hcd
  | cons _ ih => exact List.Lex.cons (ih (by simpa using hl))

/-- The orbit file names compare strictly below 1000 degrees. -/
lemma frame_filename_lt (m n : ℕ) (hmn : m < n) (hn : n < 1000) :
    ("angle_" ++ pad3 m ++ ".png" : String) < "angle_" ++ pad3 n ++ ".png" := by
  rw [String.lt_iff_toList_lt]
  have hdata : ∀ k : ℕ, ("angle_" ++ pad3 k ++ ".png").toList
      = "angle_".toList ++ ((pad3 k).toList ++ ".png".toList) := fun k => rfl
  rw [hdata, hdata]
  show List.Lex (fun c d : Char => c < d) _ _
  apply lex_append_left_chars
  exact lex_append_of_length_eq _ _ _ _ (pad3_lex m n hmn hn) rfl

lemma pairwise_of_all {α : Type} (P : α → Prop) :
    ∀ l : List α, (∀ b ∈ l, P b) → l.Pairwise (fun _ y => P y) := by
  intro l
  induction l with
  | nil => intro _; exact List.Pairwise.nil
  | cons a t ih =>
      intro h
      exact List.Pairwise.cons (fun b hb => h b (List.mem_cons_of_mem a hb))
        (ih (fun b hb => h b (List.mem_cons_of_mem a hb)))

/-- C2.  For every `angle_step` dividing 360 evenly, the orbit loop iterates
exactly over `0, angle_step, 2·angle_step, …` strictly below 360 in strictly
ascending order, rendering exactly `360 / angle_step` frames named
`angle_{angle:03d}.png` (zero-padded to 3 digits, strictly increasing as
strings) inside the given output directory, which is created first when
absent. -/
theorem render_views_orbit_spec (dirs : List String) (output_dir : String)
    (angle_step : ℕ) (hpos : 0 < angle_step) (hdvd : angle_step ∣ 360) :
    (render_views dirs output_dir angle_step).2.length = 360 / angle_step ∧
    (∀ i, i < 360 / angle_step →
      (render_views dirs output_dir angle_step).2[i]? = some
        { angle := i * angle_step,
          filename := "angle_" ++ pad3 (i * angle_step) ++ ".png",
          filepath := output_dir ++ "/" ++
            ("angle_" ++ pad3 (i * angle_step) ++ ".png") }) ∧
    (∀ f ∈ (render_views dirs output_dir angle_step).2, f.angle < 360) ∧
    (render_views dirs output_dir angle_step).2.Pairwise
      (fun f g => f.angle < g.angle) ∧
    (∀ f ∈ (render_views dirs output_dir angle_step).2,
      f.filename = "angle_" ++ pad3 f.angle ++ ".png" ∧
      f.filepath = output_dir ++ "/" ++ f.filename) ∧
    ((render_views dirs output_dir angle_step).2.map (fun f => f.filename)).Pairwise
      (fun a b => a < b) ∧
    output_dir ∈ (render_views dirs output_dir angle_step).1 ∧
    (dirs.contains output_dir = true →
      (render_views dirs output_dir angle_step).1 = dirs) ∧
    (dirs.contains output_dir = false →
      (render_views dirs output_dir angle_step).1 = dirs ++ [output_dir]) := by
  have hangle_lt : ∀ i, i < 360 / angle_step → i * angle_step < 360 := by
    intro i hi
    have h1 : i * angle_step < (360 / angle_step) * angle_step :=
      (Nat.mul_lt_mul_right hpos).mpr hi
    rwa [Nat.div_mul_cancel hdvd] at h1
  have hframes : (render_views dirs output_dir angle_step).2 =
      (List.range (360 / angle_step)).map (fun i =>
        { angle := i * angle_step,
          filename := "angle_" ++ pad3 (i * angle_step) ++ ".png",
          filepath := output_dir ++ "/" ++
            ("angle_" ++ pad3 (i * angle_step) ++ ".png") : Frame }) := by
    show (range_step 0 360 angle_step).map _ = _
    rw [range_step_eq angle_step hpos hdvd, List.map_map]
    rfl
  refine ⟨?_, ?_, ?_, ?_, ?_, ?_, ?_, ?_, ?_⟩
  · rw [hframes]
    simp
  · intro i hi
    rw [hframes, List.getElem?_map, List.getElem?_range hi]
    rfl
  · intro f hf
    rw [hframes] at hf
    obtain ⟨i, hir, rfl⟩ := List.mem_map.mp hf
    exact hangle_lt i (List.mem_range.mp hir)
  · rw [hframes]
    exact (List.pairwise_lt_range _).map _
      (fun a b hab => (Nat.mul_lt_mul_right hpos).mpr hab)
  · intro f hf
    rw [hframes] at hf
    obtain ⟨i, _, rfl⟩ := List.mem_map.mp hf
    exact ⟨rfl, rfl⟩
  · rw [hframes, List.map_map]
    have hp : (List.range (360 / angle_step)).Pairwise
        (fun a b => a < b ∧ b < 360 / angle_step) :=
      (List.pairwise_lt_range _).and
        (pairwise_of_all _ _ (fun b hb => List.mem_range.mp hb))
    exact hp.map _ (fun a b hab =>
      frame_filename_lt (a * angle_step) (b * angle_step)
        ((Nat.mul_lt_mul_right hpos).mpr hab.1)
        (lt_trans (hangle_lt b hab.2) (by omega)))
  · show output_dir ∈ (if dirs.contains output_dir then dirs
      else dirs ++ [output_dir])
    by_cases hc : dirs.contains output_dir
    · rw [if_pos hc]
      exact List.mem_of_elem_eq_true hc
    · rw [if_neg hc]
      exact List.mem_append_right dirs (List.mem_singleton.mpr rfl)
  · intro hc
    show (if dirs.contains output_dir then dirs else dirs ++ [output_dir]) = dirs
    rw [hc, if_pos rfl]
  · intro hc
    show (if dirs.contains output_dir then dirs else dirs ++ [output_dir])
      = dirs ++ [output_dir]
    rw [hc]
    rfl

/-- Witness for C2 at a 30° step: 12 frames, the output directory created,
and the file names strictly increasing. -/
theorem render_views_orbit_spec_witness :
    (0 < 30 ∧ (30 : ℕ) ∣ 360) ∧
    (render_views [] "out" 30).2.length = 360 / 30 ∧
    "out" ∈ (render_views [] "out" 30).1 ∧
    ((render_views [] "out" 30).2.map (fun f => f.filename)).Pairwise
      (fun a b => a < b) := by
  have h := render_views_orbit_spec [] "out" 30 (by decide) (by decide)
  exact ⟨⟨by decide, by decide⟩, h.1, h.2.2.2.2.2.2.1, h.2.2.2.2.2.1⟩
